import Mathlib

/-
Shallow embedding of src/switchcase.py (a switch/case emulation library) and
the relevant part of src/main.py (the driver's use of the decorator).

Modelling choices, in one place:

* Python values that the program compares with `==` are modelled by `PyVal`:
  `None`, integers, strings, and function objects.  Function objects are
  represented by an identity number (`vfunc i`); Python compares functions by
  identity, so two `vfunc` values are equal exactly when their ids are equal,
  and a function object is never equal to `None`, an int or a string.  The
  body of function `i` is looked up in an environment `Env` mapping the id to
  a pure Lean function of the reference value and the extra arguments
  (handler bodies are assumed pure, as the claims about determinism and
  frame conditions stipulate).

* The mutable state the code touches is gathered in `GState`:
  - `dict`  : the switch class's `__dict__`, an insertion-ordered mapping from
    attribute names to attribute values (a Python class dict preserves
    declaration order; iterating its keys and indexing with each key is the
    same as iterating the (name, value) pairs in order, since keys are
    unique).  Attributes are either `_Case` instances or unrelated data.
  - `msg`   : the class attribute `Matched.msg` (global mutable state on the
    exception class; `Matched.msg = ref1` before each `raise Matched(ref1)`).
  - `trace` : an event log of wrapped-body invocations `(id, ref, args)`,
    recording each time `self.function(ref, *args)` actually runs.  This is
    the observable "a handler body was invoked" effect the spec talks about.

* `_Case.__call__` always raises: either `Matched` (carrying the body's
  result) or `NotMatchedError` (carrying the reference).  Calling a
  non-callable stored object would raise `TypeError`.  These exceptional
  outcomes are the inductive `Signal`; `caseCall` returns the raised signal
  together with the updated state, and the callers (`enable`, `copyEnable`)
  pattern-match on it the way the Python `try/except` clauses do:
  `except NotMatchedError` and `except Matched` are the two handled
  constructors, `typeError` falls through every `except` and propagates.

* `enable` and `copyEnable` iterate the dict with a `for` loop; the loops are
  the structurally recursive functions `enableLoop` and `copyEnable` below
  (`pass` and `continue` both just move to the next attribute).  Falling off
  the end of a Python function returns `None`; `enable` reaching its last
  line calls `copyEnable(switch, ref="__default__")`, DISCARDS its result,
  and returns `None` (`vnone`), exactly as the source does.

* The decorator `case(function=None, **kwargs)` tests `if function:` —
  Python truthiness, modelled by `truthy`.  Keyword arguments are an ordered
  list of (name, value) pairs; `list(kwargs.values())[0]` is the head of the
  values, raising `IndexError` when there are none.  The inner closure
  `wrapper` is defunctionalised: `caseDecorator` returns either a `_Case`
  directly (the truthy branch) or `CaseDecResult.wrapper kwargs`, and
  `wrapperApply kwargs f` is what calling that closure on `f` does.
-/

/-- Python values compared by `==` in the program: `None`, `int`, `str`, and
function objects (compared by identity `id`). -/
inductive PyVal where
  | vnone
  | vint (n : Int)
  | vstr (s : String)
  | vfunc (id : Nat)
  deriving DecidableEq, Repr

/-- Python truthiness (`if function:`): `None`, `0` and `""` are falsy;
function objects are truthy. -/
def truthy : PyVal → Bool
  | PyVal.vnone => false
  | PyVal.vint n => n != 0
  | PyVal.vstr s => s != ""
  | PyVal.vfunc _ => true

/-- Environment giving each function object's (pure) body: id ↦ body, where a
body takes the reference value and the extra positional arguments. -/
abbrev Env := Nat → PyVal → List PyVal → PyVal

/-- Exceptions `_Case.__call__` can raise: the two control-flow signals
`Matched` (class `Matched`, carrying the body's result) and `NotMatchedError`
(carrying the reference), plus `TypeError` for calling a non-callable stored
object. -/
inductive Signal where
  | matched (msg : PyVal)
  | notMatched (ref : PyVal)
  | typeError
  deriving DecidableEq, Repr

/-- The `_Case` class: a wrapped behavior `function` (any object reference)
and a comparison label `case` (defaulting to `None`, as in
`def __init__(self, function, case=None)`). -/
structure _Case where
  function : PyVal
  case : PyVal := PyVal.vnone
  deriving DecidableEq, Repr

/-- An attribute value in the switch class's `__dict__`: either a `_Case`
instance (`isinstance(..., _Case)` holds) or unrelated data. -/
inductive Attr where
  | caseAttr (c : _Case)
  | other (v : PyVal)
  deriving DecidableEq, Repr

/-- A wrapped-body invocation event: (function id, reference, extra args). -/
abbrev BodyCall := Nat × PyVal × List PyVal

/-- The mutable state: the switch class's `__dict__` (insertion-ordered
name/value pairs), the class attribute `Matched.msg`, and the log of
wrapped-body invocations. -/
structure GState where
  dict : List (String × Attr)
  msg : PyVal
  trace : List BodyCall
  deriving DecidableEq, Repr

/-- Model of `_Case.__call__(self, ref, *args)`: if `ref == self.case`, run
`ref1 = self.function(ref, *args)` (logging the body call; `TypeError` if the
stored object is not callable), set `Matched.msg = ref1`, and raise
`Matched(ref1)`; otherwise raise `NotMatchedError(ref)`.  The call always
raises, so the result is the raised `Signal` with the updated state. -/
def caseCall (env : Env) (self : _Case) (ref : PyVal) (args : List PyVal)
    (st : GState) : Signal × GState :=
  if ref = self.case then
    match self.function with
    | PyVal.vfunc i =>
        let ref1 := env i ref args
        (Signal.matched ref1,
         { st with msg := ref1, trace := st.trace ++ [(i, ref, args)] })
    | _ => (Signal.typeError, st)
  else
    (Signal.notMatched ref, st)

/-- The `for thing in switch.__dict__` loop of `enable`: skip attributes that
are not `_Case` instances; call each `_Case` with `ref`; on
`NotMatchedError`, `pass`; on `Matched`, `return Matched.msg` (the class
attribute, read after the catch); any other exception propagates.  Returns
`none` when the loop finishes without returning. -/
def enableLoop (env : Env) (ref : PyVal) :
    List (String × Attr) → GState → Option (Except Signal PyVal) × GState
  | [], st => (Option.none, st)
  | (_, Attr.other _) :: rest, st => enableLoop env ref rest st
  | (_, Attr.caseAttr c) :: rest, st =>
      match caseCall env c ref [] st with
      | (Signal.notMatched _, st') => enableLoop env ref rest st'
      | (Signal.matched _, st') => (Option.some (Except.ok st'.msg), st')
      | (Signal.typeError, st') =>
          (Option.some (Except.error Signal.typeError), st')

/-- Model of `copyEnable(switch, ref)`: the same loop (with `continue` in
place of `pass`, which is equivalent as the `try` is the last statement of
the loop body); falling off the end returns `None`. -/
def copyEnable (env : Env) (ref : PyVal) :
    List (String × Attr) → GState → Except Signal PyVal × GState
  | [], st => (Except.ok PyVal.vnone, st)
  | (_, Attr.other _) :: rest, st => copyEnable env ref rest st
  | (_, Attr.caseAttr c) :: rest, st =>
      match caseCall env c ref [] st with
      | (Signal.notMatched _, st') => copyEnable env ref rest st'
      | (Signal.matched _, st') => (Except.ok st'.msg, st')
      | (Signal.typeError, st') => (Except.error Signal.typeError, st')

/-- Model of `enable(switch, ref)`: run the loop over `switch.__dict__`; if it
returned (or an exception propagated), that is the outcome; otherwise execute
`copyEnable(switch, ref="__default__")` — whose result is NOT returned (the
source has no `return` there) — and fall off the end, returning `None`
(unless `copyEnable` raised, in which case the exception propagates). -/
def enable (env : Env) (ref : PyVal) (st : GState) :
    Except Signal PyVal × GState :=
  match enableLoop env ref st.dict st with
  | (Option.some r, st') => (r, st')
  | (Option.none, st') =>
      match copyEnable env (PyVal.vstr "__default__") st'.dict st' with
      | (Except.ok _, st'') => (Except.ok PyVal.vnone, st'')
      | (Except.error e, st'') => (Except.error e, st'')

/-- Result of `case(function=None, **kwargs)`: the truthy branch returns a
`_Case` (label `None`) directly; the falsy branch returns the closure
`wrapper`, represented by the captured `kwargs`. -/
inductive CaseDecResult where
  | handler (c : _Case)
  | wrapper (kwargs : List (String × PyVal))
  deriving DecidableEq, Repr

/-- An `IndexError`, raised by `list(kwargs.values())[0]` on empty kwargs. -/
inductive DecErr where
  | indexError
  deriving DecidableEq, Repr

/-- Model of the decorator `case(function=None, **kwargs)`: `if function:`
(truthiness) return `_Case(function)`; else return the closure `wrapper`. -/
def caseDecorator (function : PyVal) (kwargs : List (String × PyVal)) :
    CaseDecResult :=
  if truthy function then
    CaseDecResult.handler { function := function }
  else
    CaseDecResult.wrapper kwargs

/-- Model of calling the inner closure `wrapper(function)`: build
`_Case(function, list(kwargs.values())[0])`; `IndexError` if no keyword was
supplied. -/
def wrapperApply (kwargs : List (String × PyVal)) (function : PyVal) :
    Except DecErr _Case :=
  match (kwargs.map Prod.snd).head? with
  | Option.some v => Except.ok { function := function, case := v }
  | Option.none => Except.error DecErr.indexError

/-- True when no `_Case` attribute in `items` has its label equal to `ref`
(non-`_Case` attributes are ignored, as the `isinstance` test skips them). -/
def noMatchIn (items : List (String × Attr)) (ref : PyVal) : Bool :=
  items.all fun e =>
    match e.2 with
    | Attr.caseAttr c => !decide (c.case = ref)
    | Attr.other _ => true

/-- Bodies for the spec's example scenario 1: function 0 returns "one",
function 1 returns "two", function 2 (the default's body) returns "other". -/
def envEx : Env := fun i _ref _args =>
  if i = 0 then PyVal.vstr ("one")
  else if i = 1 then PyVal.vstr ("two")
  else if i = 2 then PyVal.vstr ("other")
  else PyVal.vnone

/-- A class `__dict__` for scenario 1: a non-`_Case` attribute, `case(1)`,
`case(2)`, and a default handler labelled `"__default__"`. -/
def dictEx : List (String × Attr) :=
  [("__module__", Attr.other (PyVal.vstr ("__main__"))),
   ("case1", Attr.caseAttr { function := PyVal.vfunc 0, case := PyVal.vint 1 }),
   ("case2", Attr.caseAttr { function := PyVal.vfunc 1, case := PyVal.vint 2 }),
   ("__default__",
    Attr.caseAttr { function := PyVal.vfunc 2, case := PyVal.vstr ("__default__") })]

/-- Initial state for scenario 1. -/
def stEx1 : GState := { dict := dictEx, msg := PyVal.vnone, trace := [] }

/-- A class `__dict__` with labelled handlers but no default handler. -/
def dictNoDefault : List (String × Attr) :=
  [("case1", Attr.caseAttr { function := PyVal.vfunc 0, case := PyVal.vint 1 }),
   ("case2", Attr.caseAttr { function := PyVal.vfunc 1, case := PyVal.vint 2 })]

/-- Initial state for the group with no default handler. -/
def stNoDefault : GState := { dict := dictNoDefault, msg := PyVal.vnone, trace := [] }

/-- A class `__dict__` with two handlers sharing the (invalid) duplicate
label `1`, plus a default handler. -/
def dictDup : List (String × Attr) :=
  [("a", Attr.caseAttr { function := PyVal.vfunc 0, case := PyVal.vint 1 }),
   ("b", Attr.caseAttr { function := PyVal.vfunc 1, case := PyVal.vint 1 }),
   ("__default__",
    Attr.caseAttr { function := PyVal.vfunc 2, case := PyVal.vstr ("__default__") })]

/-- Initial state for the duplicate-label group. -/
def stDup : GState := { dict := dictDup, msg := PyVal.vnone, trace := [] }

/-- Unfolding `_Case.__call__` when the reference equals the label and the
stored behavior is callable: the body runs (logged), `Matched.msg` is set to
its result, and `Matched` is raised carrying that result. -/
lemma caseCall_matched (env : Env) (c : _Case) (ref : PyVal) (args : List PyVal)
    (i : Nat) (st : GState) (hlab : ref = c.case) (hfn : c.function = PyVal.vfunc i) :
    caseCall env c ref args st =
      (Signal.matched (env i ref args),
       { st with msg := env i ref args, trace := st.trace ++ [(i, ref, args)] }) := by
  subst hlab
  simp [caseCall, hfn]

/-- Unfolding `_Case.__call__` when the reference differs from the label:
`NotMatchedError(ref)` is raised and the state is untouched. -/
lemma caseCall_notMatched (env : Env) (c : _Case) (ref : PyVal) (args : List PyVal)
    (st : GState) (hne : ref ≠ c.case) :
    caseCall env c ref args st = (Signal.notMatched ref, st) := by
  simp [caseCall, hne]

/-- `_Case.__call__` never changes the class `__dict__`. -/
lemma caseCall_dict (env : Env) (c : _Case) (ref : PyVal) (args : List PyVal)
    (st : GState) : (caseCall env c ref args st).2.dict = st.dict := by
  by_cases h : ref = c.case
  · cases hf : c.function <;> simp [caseCall, h, hf]
  · simp [caseCall, h]

/-- The `enable` loop never changes the class `__dict__`. -/
lemma enableLoop_dict (env : Env) (ref : PyVal) (items : List (String × Attr)) :
    ∀ st : GState, (enableLoop env ref items st).2.dict = st.dict := by
  induction items with
  | nil => intro st; rfl
  | cons e rest ih =>
    intro st
    obtain ⟨n, attr⟩ := e
    cases attr with
    | caseAttr c =>
      rcases hcc : caseCall env c ref [] st with ⟨sig, st'⟩
      have hd : st'.dict = st.dict := by
        have h0 := caseCall_dict env c ref [] st
        rw [hcc] at h0
        exact h0
      simp only [enableLoop, hcc]
      cases sig with
      | matched m => simpa using hd
      | notMatched r => simpa using (ih st').trans hd
      | typeError => simpa using hd
    | other v => exact ih st

/-- The `copyEnable` loop never changes the class `__dict__`. -/
lemma copyEnable_dict (env : Env) (ref : PyVal) (items : List (String × Attr)) :
    ∀ st : GState, (copyEnable env ref items st).2.dict = st.dict := by
  induction items with
  | nil => intro st; rfl
  | cons e rest ih =>
    intro st
    obtain ⟨n, attr⟩ := e
    cases attr with
    | caseAttr c =>
      rcases hcc : caseCall env c ref [] st with ⟨sig, st'⟩
      have hd : st'.dict = st.dict := by
        have h0 := caseCall_dict env c ref [] st
        rw [hcc] at h0
        exact h0
      simp only [copyEnable, hcc]
      cases sig with
      | matched m => simpa using hd
      | notMatched r => simpa using (ih st').trans hd
      | typeError => simpa using hd
    | other v => exact ih st

/-- `enable` never changes the class `__dict__` (shared frame lemma). -/
lemma enable_dict (env : Env) (ref : PyVal) (st : GState) :
    (enable env ref st).2.dict = st.dict := by
  simp only [enable]
  rcases hL : enableLoop env ref st.dict st with ⟨r, st'⟩
  have hd1 : st'.dict = st.dict := by
    have h0 := enableLoop_dict env ref st.dict st
    rw [hL] at h0
    exact h0
  cases r with
  | some rr => simpa using hd1
  | none =>
    rcases hC : copyEnable env (PyVal.vstr ("__default__")) st'.dict st' with ⟨r2, st''⟩
    have hd2 : st''.dict = st'.dict := by
      have h0 := copyEnable_dict env (PyVal.vstr ("__default__")) st'.dict st'
      rw [hC] at h0
      exact h0
    simp only [hC]
    cases r2 with
    | ok v => simpa using hd2.trans hd1
    | error e => simpa using hd2.trans hd1

/-- `noMatchIn` on a cons whose head is a `_Case` attribute. -/
lemma noMatchIn_cons_case (n : String) (c : _Case) (rest : List (String × Attr))
    (ref : PyVal) :
    noMatchIn ((n, Attr.caseAttr c) :: rest) ref = true ↔
      c.case ≠ ref ∧ noMatchIn rest ref = true := by
  simp [noMatchIn]

/-- `noMatchIn` ignores non-`_Case` attributes. -/
lemma noMatchIn_cons_other (n : String) (v : PyVal) (rest : List (String × Attr))
    (ref : PyVal) :
    noMatchIn ((n, Attr.other v) :: rest) ref = noMatchIn rest ref := by
  simp [noMatchIn]

/-- A prefix of attributes none of which matches the reference is traversed
by the `enable` loop without any effect: every `_Case` in it raises
`NotMatchedError` (state untouched) and non-`_Case` attributes are skipped. -/
lemma enableLoop_skip (env : Env) (ref : PyVal) (pre : List (String × Attr)) :
    ∀ (rest : List (String × Attr)) (st : GState), noMatchIn pre ref = true →
      enableLoop env ref (pre ++ rest) st = enableLoop env ref rest st := by
  induction pre with
  | nil => intro rest st _; rfl
  | cons e pre' ih =>
    intro rest st hall
    obtain ⟨n, attr⟩ := e
    cases attr with
    | caseAttr c =>
      rw [noMatchIn_cons_case] at hall
      obtain ⟨hne, hrest⟩ := hall
      have hcc : caseCall env c ref [] st = (Signal.notMatched ref, st) :=
        caseCall_notMatched env c ref [] st (fun h => hne h.symm)
      simp only [List.cons_append, enableLoop, hcc]
      exact ih rest st hrest
    | other v =>
      rw [noMatchIn_cons_other] at hall
      simp only [List.cons_append, enableLoop]
      exact ih rest st hall

/-- Same as `enableLoop_skip` for the `copyEnable` loop. -/
lemma copyEnable_skip (env : Env) (ref : PyVal) (pre : List (String × Attr)) :
    ∀ (rest : List (String × Attr)) (st : GState), noMatchIn pre ref = true →
      copyEnable env ref (pre ++ rest) st = copyEnable env ref rest st := by
  induction pre with
  | nil => intro rest st _; rfl
  | cons e pre' ih =>
    intro rest st hall
    obtain ⟨n, attr⟩ := e
    cases attr with
    | caseAttr c =>
      rw [noMatchIn_cons_case] at hall
      obtain ⟨hne, hrest⟩ := hall
      have hcc : caseCall env c ref [] st = (Signal.notMatched ref, st) :=
        caseCall_notMatched env c ref [] st (fun h => hne h.symm)
      simp only [List.cons_append, copyEnable, hcc]
      exact ih rest st hrest
    | other v =>
      rw [noMatchIn_cons_other] at hall
      simp only [List.cons_append, copyEnable]
      exact ih rest st hall

/-- When no attribute matches, the `enable` loop finishes without returning
and without touching the state. -/
lemma enableLoop_no_match (env : Env) (ref : PyVal) (items : List (String × Attr))
    (st : GState) (h : noMatchIn items ref = true) :
    enableLoop env ref items st = (Option.none, st) := by
  have h0 := enableLoop_skip env ref items [] st h
  rw [List.append_nil] at h0
  exact h0

/-- When no attribute matches, `copyEnable` returns `None` and leaves the
state untouched. -/
lemma copyEnable_no_match (env : Env) (ref : PyVal) (items : List (String × Attr))
    (st : GState) (h : noMatchIn items ref = true) :
    copyEnable env ref items st = (Except.ok PyVal.vnone, st) := by
  have h0 := copyEnable_skip env ref items [] st h
  rw [List.append_nil] at h0
  exact h0

/-- The `enable` loop at a matching, callable handler: the handler's body
runs on the reference, and the loop returns `Matched.msg`, which was just set
to the body's result. -/
lemma enableLoop_match (env : Env) (ref : PyVal) (n : String) (c : _Case) (i : Nat)
    (rest : List (String × Attr)) (st : GState)
    (hlab : c.case = ref) (hfn : c.function = PyVal.vfunc i) :
    enableLoop env ref ((n, Attr.caseAttr c) :: rest) st =
      (Option.some (Except.ok (env i ref [])),
       { st with msg := env i ref [], trace := st.trace ++ [(i, ref, [])] }) := by
  have hcc := caseCall_matched env c ref [] i st hlab.symm hfn
  simp only [enableLoop, hcc]

/-- First-match behavior of `enable`: if the class dict is a prefix with no
matching label, then a matching handler with a callable body, then anything,
activation returns that handler's body applied to the reference, logging
exactly that one body invocation. -/
lemma enable_first_match (env : Env) (ref : PyVal) (pre : List (String × Attr))
    (n : String) (c : _Case) (i : Nat) (post : List (String × Attr)) (st : GState)
    (hdict : st.dict = pre ++ (n, Attr.caseAttr c) :: post)
    (hpre : noMatchIn pre ref = true)
    (hlab : c.case = ref) (hfn : c.function = PyVal.vfunc i) :
    enable env ref st =
      (Except.ok (env i ref []),
       { st with msg := env i ref [], trace := st.trace ++ [(i, ref, [])] }) := by
  simp only [enable, hdict]
  rw [enableLoop_skip env ref pre ((n, Attr.caseAttr c) :: post) st hpre,
      enableLoop_match env ref n c i post st hlab hfn]
  simp [hdict]

/-- The value the `enable` loop produces does not depend on the incoming
`Matched.msg` or trace: `Matched.msg` is read only immediately after being
set by the matching call. -/
lemma enableLoop_fst_congr (env : Env) (ref : PyVal) (items : List (String × Attr)) :
    ∀ st st_ : GState, (enableLoop env ref items st).1 = (enableLoop env ref items st_).1 := by
  induction items with
  | nil => intro st st_; rfl
  | cons e rest ih =>
    intro st st_
    obtain ⟨n, attr⟩ := e
    cases attr with
    | other v => exact ih st st_
    | caseAttr c =>
      by_cases h : ref = c.case
      · cases hf : c.function <;> simp [enableLoop, caseCall, h, hf]
      · rw [enableLoop, enableLoop, caseCall_notMatched env c ref [] st h,
            caseCall_notMatched env c ref [] st_ h]
        exact ih st st_

/-- Same as `enableLoop_fst_congr` for the `copyEnable` loop. -/
lemma copyEnable_fst_congr (env : Env) (ref : PyVal) (items : List (String × Attr)) :
    ∀ st st_ : GState, (copyEnable env ref items st).1 = (copyEnable env ref items st_).1 := by
  induction items with
  | nil => intro st st_; rfl
  | cons e rest ih =>
    intro st st_
    obtain ⟨n, attr⟩ := e
    cases attr with
    | other v => exact ih st st_
    | caseAttr c =>
      by_cases h : ref = c.case
      · cases hf : c.function <;> simp [copyEnable, caseCall, h, hf]
      · rw [copyEnable, copyEnable, caseCall_notMatched env c ref [] st h,
            caseCall_notMatched env c ref [] st_ h]
        exact ih st st_

/-- The value `enable` returns depends only on the class `__dict__`, not on
the incoming `Matched.msg` or trace. -/
lemma enable_fst_congr (env : Env) (ref : PyVal) (st st_ : GState)
    (hdict : st.dict = st_.dict) :
    (enable env ref st).1 = (enable env ref st_).1 := by
  simp only [enable, hdict]
  rcases hL1 : enableLoop env ref st_.dict st with ⟨r1, st1⟩
  rcases hL2 : enableLoop env ref st_.dict st_ with ⟨r2, st2⟩
  have hr : r1 = r2 := by
    have h0 := enableLoop_fst_congr env ref st_.dict st st_
    rw [hL1, hL2] at h0
    exact h0
  subst hr
  cases r1 with
  | some r => rfl
  | none =>
    have hd1 : st1.dict = st_.dict := by
      have h0 := enableLoop_dict env ref st_.dict st
      rw [hL1] at h0
      rw [h0, hdict]
    have hd2 : st2.dict = st_.dict := by
      have h0 := enableLoop_dict env ref st_.dict st_
      rw [hL2] at h0
      exact h0
    dsimp only
    rw [hd1, hd2]
    rcases hC1 : copyEnable env (PyVal.vstr ("__default__")) st_.dict st1 with ⟨c1, st1'⟩
    rcases hC2 : copyEnable env (PyVal.vstr ("__default__")) st_.dict st2 with ⟨c2, st2'⟩
    have hc : c1 = c2 := by
      have h0 := copyEnable_fst_congr env (PyVal.vstr ("__default__")) st_.dict st1 st2
      rw [hC1, hC2] at h0
      exact h0
    subst hc
    cases c1 with
    | ok v => rfl
    | error e => rfl

/-- Every outcome of the `copyEnable` loop is a normal return or a
propagating `TypeError`; the `Matched`/`NotMatchedError` signals are consumed
by the `try/except` clauses. -/
lemma copyEnable_no_signal (env : Env) (ref : PyVal) (items : List (String × Attr)) :
    ∀ st : GState,
      (∃ v, (copyEnable env ref items st).1 = Except.ok v) ∨
      (copyEnable env ref items st).1 = Except.error Signal.typeError := by
  induction items with
  | nil => intro st; exact Or.inl ⟨PyVal.vnone, rfl⟩
  | cons e rest ih =>
    intro st
    obtain ⟨n, attr⟩ := e
    cases attr with
    | other v => exact ih st
    | caseAttr c =>
      rcases hcc : caseCall env c ref [] st with ⟨sig, st'⟩
      cases sig with
      | matched m =>
        refine Or.inl ⟨st'.msg, ?_⟩
        simp only [copyEnable, hcc]
      | notMatched r =>
        have h0 := ih st'
        simpa only [copyEnable, hcc] using h0
      | typeError =>
        refine Or.inr ?_
        simp only [copyEnable, hcc]

/-- Every outcome of the `enable` loop is: fell through, returned a value, or
a propagating `TypeError`; the two signals are consumed. -/
lemma enableLoop_no_signal (env : Env) (ref : PyVal) (items : List (String × Attr)) :
    ∀ st : GState,
      (enableLoop env ref items st).1 = Option.none ∨
      (∃ v, (enableLoop env ref items st).1 = Option.some (Except.ok v)) ∨
      (enableLoop env ref items st).1 = Option.some (Except.error Signal.typeError) := by
  induction items with
  | nil => intro st; exact Or.inl rfl
  | cons e rest ih =>
    intro st
    obtain ⟨n, attr⟩ := e
    cases attr with
    | other v => exact ih st
    | caseAttr c =>
      rcases hcc : caseCall env c ref [] st with ⟨sig, st'⟩
      cases sig with
      | matched m =>
        refine Or.inr (Or.inl ⟨st'.msg, ?_⟩)
        simp only [enableLoop, hcc]
      | notMatched r =>
        have h0 := ih st'
        simpa only [enableLoop, hcc] using h0
      | typeError =>
        refine Or.inr (Or.inr ?_)
        simp only [enableLoop, hcc]

/-- C9: activation never mutates the Switch Group: after `enable` returns,
the class `__dict__` — the handlers, their labels and wrapped behaviors, and
any unrelated attributes — is exactly what it was before the call, so the
group may be activated any number of times. -/
theorem enable_preserves_group (env : Env) (ref : PyVal) (st : GState) :
    (enable env ref st).2.dict = st.dict :=
  enable_dict env ref st

/-- C8: with pure handler bodies, two successive activations of the same
group with the same reference value return the same result: the second call,
run from the state the first call left behind (including the mutated
`Matched.msg` class attribute and the extended invocation log), produces the
same value as the first. -/
theorem enable_deterministic (env : Env) (ref : PyVal) (st : GState) :
    (enable env ref (enable env ref st).2).1 = (enable env ref st).1 :=
  enable_fst_congr env ref (enable env ref st).2 st (enable_dict env ref st)

/-- C7: the internal `Matched` and `NotMatchedError` control signals raised
by handlers during an activation are always caught inside `enable` (and the
`copyEnable` it calls): every activation outcome is either a normal return
value or a propagating `TypeError` (from a matching handler whose stored
behavior is not callable) — never one of the two signals. -/
theorem enable_signals_never_escape (env : Env) (ref : PyVal) (st : GState) :
    (∃ v, (enable env ref st).1 = Except.ok v) ∨
    (enable env ref st).1 = Except.error Signal.typeError := by
  simp only [enable]
  rcases hL : enableLoop env ref st.dict st with ⟨r, st'⟩
  have h0 := enableLoop_no_signal env ref st.dict st
  rw [hL] at h0
  dsimp only at h0
  cases r with
  | some rr =>
    dsimp only
    rcases h0 with h | ⟨v, hv⟩ | h
    · exact absurd h (by simp)
    · injection hv with hv'
      exact Or.inl ⟨v, hv'⟩
    · injection h with h'
      exact Or.inr h'
  | none =>
    dsimp only
    rcases hC : copyEnable env (PyVal.vstr ("__default__")) st'.dict st' with ⟨r2, st''⟩
    have h1 := copyEnable_no_signal env (PyVal.vstr ("__default__")) st'.dict st'
    rw [hC] at h1
    dsimp only at h1
    rcases h1 with ⟨v, hv⟩ | h
    · subst hv
      exact Or.inl ⟨PyVal.vnone, rfl⟩
    · subst h
      exact Or.inr rfl

/-- C2: when the reference value equals the label of exactly one declared
handler (no duplicate labels anywhere in the group), activation returns that
handler's body applied to the reference, and the invocation log shows that no
other handler's wrapped body ran. -/
theorem enable_unique_match (env : Env) (R : PyVal) (pre post : List (String × Attr))
    (n : String) (c : _Case) (i : Nat) (st : GState)
    (hdict : st.dict = pre ++ (n, Attr.caseAttr c) :: post)
    (hlab : c.case = R) (hfn : c.function = PyVal.vfunc i)
    (hpre : noMatchIn pre R = true) (hpost : noMatchIn post R = true) :
    (enable env R st).1 = Except.ok (env i R []) ∧
    (enable env R st).2.trace = st.trace ++ [(i, R, [])] := by
  rw [enable_first_match env R pre n c i post st hdict hpre hlab hfn]
  exact ⟨rfl, rfl⟩

/-- Witness for C2 on the spec's scenario-1 group: activating with `2`
returns `"two"` (body 1 applied to `2`) and logs exactly that invocation. -/
theorem enable_unique_match_witness :
    (enable envEx (PyVal.vint 2) stEx1).1 = Except.ok (envEx 1 (PyVal.vint 2) []) ∧
    (enable envEx (PyVal.vint 2) stEx1).2.trace = stEx1.trace ++ [(1, PyVal.vint 2, [])] :=
  enable_unique_match envEx (PyVal.vint 2)
    [("__module__", Attr.other (PyVal.vstr ("__main__"))),
     ("case1", Attr.caseAttr { function := PyVal.vfunc 0, case := PyVal.vint 1 })]
    [("__default__",
      Attr.caseAttr { function := PyVal.vfunc 2, case := PyVal.vstr ("__default__") })]
    "case2" { function := PyVal.vfunc 1, case := PyVal.vint 2 } 1 stEx1
    rfl rfl rfl (by decide) (by decide)

/-- C5: if (although invalid) several handlers share the matching label,
activation returns the earliest-declared matching handler's result and stops
there: only that handler's body is invoked. -/
theorem enable_duplicate_first_match (env : Env) (R : PyVal) (pre post : List (String × Attr))
    (n : String) (c : _Case) (i : Nat) (st : GState)
    (hdict : st.dict = pre ++ (n, Attr.caseAttr c) :: post)
    (hlab : c.case = R) (hfn : c.function = PyVal.vfunc i)
    (hpre : noMatchIn pre R = true) :
    (enable env R st).1 = Except.ok (env i R []) ∧
    (enable env R st).2.trace = st.trace ++ [(i, R, [])] := by
  rw [enable_first_match env R pre n c i post st hdict hpre hlab hfn]
  exact ⟨rfl, rfl⟩

/-- Witness for C5 on a group with two handlers labelled `1`: activating with
`1` runs body 0 (the earliest) and never body 1. -/
theorem enable_duplicate_first_match_witness :
    (enable envEx (PyVal.vint 1) stDup).1 = Except.ok (envEx 0 (PyVal.vint 1) []) ∧
    (enable envEx (PyVal.vint 1) stDup).2.trace = stDup.trace ++ [(0, PyVal.vint 1, [])] :=
  enable_duplicate_first_match envEx (PyVal.vint 1) []
    [("b", Attr.caseAttr { function := PyVal.vfunc 1, case := PyVal.vint 1 }),
     ("__default__",
      Attr.caseAttr { function := PyVal.vfunc 2, case := PyVal.vstr ("__default__") })]
    "a" { function := PyVal.vfunc 0, case := PyVal.vint 1 } 0 stDup
    rfl rfl rfl (by decide)

/-- Counterexample to C3: a group with labelled handlers but no
default-labelled handler, activated with `5`, raises nothing — `enable`
completes normally, returns `None`, and leaves the state (including the
invocation log) untouched.  No configuration error of any kind is reported. -/
theorem enable_no_default_counterexample :
    (enable envEx (PyVal.vint 5) stNoDefault).1 = Except.ok PyVal.vnone ∧
    (enable envEx (PyVal.vint 5) stNoDefault).2 = stNoDefault :=
  ⟨rfl, rfl⟩

/-- C3 amended: a group built without a default-labelled handler never
raises a configuration error; when the reference also matches no declared
label, `enable` completes silently, returning `None` with no handler body
invoked and no state change. -/
theorem enable_missing_default_silent (env : Env) (ref : PyVal) (st : GState)
    (href : noMatchIn st.dict ref = true)
    (hdef : noMatchIn st.dict (PyVal.vstr ("__default__")) = true) :
    enable env ref st = (Except.ok PyVal.vnone, st) := by
  simp only [enable]
  rw [enableLoop_no_match env ref st.dict st href]
  dsimp only
  rw [copyEnable_no_match env (PyVal.vstr ("__default__")) st.dict st hdef]

/-- Witness for the amended C3 on the default-less group with reference `7`. -/
theorem enable_missing_default_silent_witness :
    enable envEx (PyVal.vint 7) stNoDefault = (Except.ok PyVal.vnone, stNoDefault) :=
  enable_missing_default_silent envEx (PyVal.vint 7) stNoDefault (by decide) (by decide)

/-- C1 (code bug evaluated): on the scenario-1 group with reference `99`
(matching no non-default label), the default handler's body is invoked
exactly once — with the `"__default__"` sentinel — and produces `"other"`,
but `enable` returns `None`: the `copyEnable(switch, ref="__default__")`
result is discarded because the source lacks a `return` on its last line, so
activation does not return the default handler's result. -/
theorem enable_default_result_discarded :
    (enable envEx (PyVal.vint 99) stEx1).1 = Except.ok PyVal.vnone ∧
    (enable envEx (PyVal.vint 99) stEx1).2.trace = [(2, PyVal.vstr ("__default__"), [])] ∧
    envEx 2 (PyVal.vstr ("__default__")) [] = PyVal.vstr ("other") ∧
    PyVal.vstr ("other") ≠ PyVal.vnone :=
  ⟨rfl, rfl, rfl, by decide⟩

/-- C4: a tagged handler invoked with a context value and extra arguments
either (context equal to the stored label) runs the wrapped behavior on those
arguments and raises `Matched` carrying the behavior's result — never a
normal return, the call's only outcomes being raised signals — or (context
different from the label) raises `NotMatchedError` carrying the context. -/
theorem caseCall_signals (env : Env) (self : _Case) (ref : PyVal) (args : List PyVal)
    (st : GState) (i : Nat) (hfn : self.function = PyVal.vfunc i) :
    (ref = self.case →
       caseCall env self ref args st =
         (Signal.matched (env i ref args),
          { st with msg := env i ref args, trace := st.trace ++ [(i, ref, args)] })) ∧
    (ref ≠ self.case →
       caseCall env self ref args st = (Signal.notMatched ref, st)) :=
  ⟨fun h => caseCall_matched env self ref args i st h hfn,
   fun h => caseCall_notMatched env self ref args st h⟩

/-- Witness for C4: the handler labelled `1` with body 0, called on `1`,
raises `Matched ("one")` after running its body; called on `2`, it raises
`NotMatchedError (2)` without running anything. -/
theorem caseCall_signals_witness :
    caseCall envEx { function := PyVal.vfunc 0, case := PyVal.vint 1 }
        (PyVal.vint 1) [] stEx1 =
      (Signal.matched (envEx 0 (PyVal.vint 1) []),
       { stEx1 with msg := envEx 0 (PyVal.vint 1) [],
                    trace := stEx1.trace ++ [(0, PyVal.vint 1, [])] }) ∧
    caseCall envEx { function := PyVal.vfunc 0, case := PyVal.vint 1 }
        (PyVal.vint 2) [] stEx1 =
      (Signal.notMatched (PyVal.vint 2), stEx1) :=
  ⟨(caseCall_signals envEx { function := PyVal.vfunc 0, case := PyVal.vint 1 }
      (PyVal.vint 1) [] stEx1 0 rfl).1 rfl,
   (caseCall_signals envEx { function := PyVal.vfunc 0, case := PyVal.vint 1 }
      (PyVal.vint 2) [] stEx1 0 rfl).2 (by decide)⟩

/-- C6: in the label-supplying shape, a label cannot be passed positionally —
a truthy positional argument is taken as the wrapped behavior and the
produced handler's label is `None`; with one or more keyword arguments, the
keyword's name is ignored and only the first keyword's value becomes the
effective label, whatever further keywords are passed. -/
theorem case_label_keyword_only (v f w : PyVal) (n : String)
    (kwargs rest : List (String × PyVal)) (hv : truthy v = true) :
    caseDecorator v kwargs =
      CaseDecResult.handler { function := v, case := PyVal.vnone } ∧
    caseDecorator PyVal.vnone ((n, w) :: rest) =
      CaseDecResult.wrapper ((n, w) :: rest) ∧
    wrapperApply ((n, w) :: rest) f = Except.ok { function := f, case := w } := by
  refine ⟨?_, rfl, rfl⟩
  simp [caseDecorator, hv]

/-- Witness for C6: passing keywords `val=7, other=8` labels the handler `7`
(name `"val"` ignored, second keyword ignored); passing `1` positionally
yields a handler whose label is `None`, not `1`. -/
theorem case_label_keyword_only_witness :
    caseDecorator (PyVal.vint 1) [] =
      CaseDecResult.handler { function := PyVal.vint 1, case := PyVal.vnone } ∧
    caseDecorator PyVal.vnone [("val", PyVal.vint 7), ("other", PyVal.vint 8)] =
      CaseDecResult.wrapper [("val", PyVal.vint 7), ("other", PyVal.vint 8)] ∧
    wrapperApply [("val", PyVal.vint 7), ("other", PyVal.vint 8)] (PyVal.vfunc 5) =
      Except.ok { function := PyVal.vfunc 5, case := PyVal.vint 7 } :=
  case_label_keyword_only (PyVal.vint 1) (PyVal.vfunc 5) (PyVal.vint 7) "val"
    [] [("other", PyVal.vint 8)] (by decide)

/-- C10: calling `case` with a truthy positional value takes the
bare-decoration branch, storing the value itself as the wrapped behavior with
label `None`; using the produced handler as a decorator then calls it with
the decorated function object as context, and since a function object never
equals `None` this raises `NotMatchedError` carrying that function — at class
definition time, as the driver's `@case(1)` declarations do — so a
positionally supplied label never yields a usable labelled handler. -/
theorem positional_case_unusable (env : Env) (v : PyVal) (kwargs : List (String × PyVal))
    (i : Nat) (st : GState) (hv : truthy v = true) :
    caseDecorator v kwargs =
      CaseDecResult.handler { function := v, case := PyVal.vnone } ∧
    caseCall env { function := v, case := PyVal.vnone } (PyVal.vfunc i) [] st =
      (Signal.notMatched (PyVal.vfunc i), st) := by
  constructor
  · simp [caseDecorator, hv]
  · exact caseCall_notMatched env { function := v, case := PyVal.vnone }
      (PyVal.vfunc i) [] st (by simp)

/-- Witness for C10 at the driver's `@case(1)`: `case(1)` yields the handler
`_Case(1)` with label `None`, and decorating function object `9` with it
raises `NotMatchedError` carrying that function object. -/
theorem positional_case_unusable_witness :
    caseDecorator (PyVal.vint 1) [] =
      CaseDecResult.handler { function := PyVal.vint 1, case := PyVal.vnone } ∧
    caseCall envEx { function := PyVal.vint 1, case := PyVal.vnone }
        (PyVal.vfunc 9) [] stEx1 =
      (Signal.notMatched (PyVal.vfunc 9), stEx1) :=
  positional_case_unusable envEx (PyVal.vint 1) [] 9 stEx1 (by decide)
